import Mathlib

/-!
Shallow embedding of scripts/render_invoice_images.py, a one-shot CLI that
renders the first page of a PDF invoice to PNG and/or JPEG files.

The script's effects (calling the rasterizer, creating parent directories,
saving an image, printing a confirmation line) are recorded as an event
trace, and the run ends in an outcome: success, a SystemExit with a
user-facing message (Python exits non-zero when SystemExit carries a string
message), or a propagated exception from the image save call.

The filesystem and the external pdf2image library are abstracted into an
environment of pure functions; page images returned by the rasterizer are
opaque and represented by natural-number identifiers.
-/

namespace RenderInvoiceImages

/-- Parsed command-line arguments, as produced by parse_args: --input is
required, --png and --jpg are optional string options (argparse yields
None when an option is absent), --dpi is an int defaulting to 200. -/
structure Args where
  input : String
  png : Option String := none
  jpg : Option String := none
  dpi : Int := 200
deriving Repr, DecidableEq

/-- Python truthiness of an optional string value: None is falsy and the
empty string is falsy; every other string is truthy. This is the test the
script performs with `if args.png:` and `if args.jpg:`. -/
def truthy : Option String → Bool
  | none => false
  | some s => s != ""

/-- Observable effects of one run of the script, in order. -/
inductive Event where
  | convertCall (path : String) (dpi : Int)
  | mkdirParents (path : String)
  | savePage (path : String) (fmt : String) (page : Nat)
  | printLine (line : String)
deriving Repr, DecidableEq

/-- How a run terminates: normally, via SystemExit with a user-facing
message, or via an exception propagating out of a save call. -/
inductive Outcome where
  | success
  | systemExit (msg : String)
  | exception (msg : String)
deriving Repr, DecidableEq

/-- The world as the script observes it: whether a path exists, whether
the parent directory of a path exists, what pages convert_from_path
returns for a PDF path and DPI, and whether saving to a path raises. -/
structure Env where
  pathExists : String → Bool
  parentExists : String → Bool
  convert_from_path : String → Int → List Nat
  saveFails : String → Bool

/-- The ensure_parent helper. In Python the guard is
`if path and path.parent and not path.parent.exists()`; Path objects are
always truthy, so the guard reduces to the exists check on the parent, and
the body creates the missing parent directories. -/
def ensure_parent (env : Env) (path : String) : List Event :=
  if env.parentExists path then [] else [Event.mkdirParents path]

/-- The output-request list the script builds: the PNG entry first when
--png is truthy, then the JPEG entry when --jpg is truthy. Each entry
pairs the output path with the format tag passed to save. -/
def outputs (args : Args) : List (String × String) :=
  (if truthy args.png then [(args.png.getD "", "PNG")] else []) ++
  (if truthy args.jpg then [(args.jpg.getD "", "JPEG")] else [])

/-- The final for-loop of main: for each requested output, run
ensure_parent, then save the first page and print the confirmation line.
A failing save raises, ending the run with the events emitted so far. -/
def writeLoop (env : Env) (first_page : Nat) :
    List (String × String) → List Event × Outcome
  | [] => ([], Outcome.success)
  | (output_path, fmt) :: rest =>
    let pre := ensure_parent env output_path
    if env.saveFails output_path then
      (pre, Outcome.exception ("save failed: " ++ output_path))
    else
      let done := pre ++ [Event.savePage output_path fmt first_page,
        Event.printLine ("Generated " ++ fmt ++ " image at " ++ output_path)]
      let next := writeLoop env first_page rest
      (done ++ next.1, next.2)

/-- The main function of the script: check the input path exists, build
the output list and check it is non-empty, call the rasterizer, check it
returned at least one page, then write the first page to each requested
output. Returns the event trace together with the outcome. -/
def main (env : Env) (args : Args) : List Event × Outcome :=
  let pdf_path := args.input
  if !env.pathExists pdf_path then
    ([], Outcome.systemExit ("PDF not found: " ++ pdf_path))
  else
    let outs := outputs args
    if outs.isEmpty then
      ([], Outcome.systemExit "Specify at least --png or --jpg output path.")
    else
      match env.convert_from_path pdf_path args.dpi with
      | [] =>
        ([Event.convertCall pdf_path args.dpi],
         Outcome.systemExit "No pages rendered from PDF.")
      | first_page :: _ =>
        let run := writeLoop env first_page outs
        (Event.convertCall pdf_path args.dpi :: run.1, run.2)

/-- Paths of the save events of a trace, in order. -/
def savedPaths (evs : List Event) : List String :=
  evs.filterMap fun e => match e with
    | Event.savePage p _ _ => some p
    | _ => none

/-- Path-format pairs of the save events of a trace, in order. -/
def savedOutputs (evs : List Event) : List (String × String) :=
  evs.filterMap fun e => match e with
    | Event.savePage p f _ => some (p, f)
    | _ => none

/-- Lines printed to standard output by a trace, in order. -/
def printedLines (evs : List Event) : List String :=
  evs.filterMap fun e => match e with
    | Event.printLine l => some l
    | _ => none

/-- Rasterizer invocations of a trace, in order. -/
def convertCalls (evs : List Event) : List (String × Int) :=
  evs.filterMap fun e => match e with
    | Event.convertCall p d => some (p, d)
    | _ => none

/-- The confirmation line printed for one output request. -/
def confLine (o : String × String) : String :=
  "Generated " ++ o.2 ++ " image at " ++ o.1

/-- Sanity check of the embedding on a fully concrete successful run. -/
theorem main_concrete_run :
    main
      { pathExists := fun _ => true, parentExists := fun _ => true,
        convert_from_path := fun _ _ => [7], saveFails := fun _ => false }
      { input := "in.pdf", png := some "a.png", jpg := some "b.jpg" }
      = ([Event.convertCall "in.pdf" 200,
          Event.savePage "a.png" "PNG" 7,
          Event.printLine "Generated PNG image at a.png",
          Event.savePage "b.jpg" "JPEG" 7,
          Event.printLine "Generated JPEG image at b.jpg"],
         Outcome.success) := by decide

theorem savedOutputs_append (a b : List Event) :
    savedOutputs (a ++ b) = savedOutputs a ++ savedOutputs b := by
  simp [savedOutputs, List.filterMap_append]

theorem printedLines_append (a b : List Event) :
    printedLines (a ++ b) = printedLines a ++ printedLines b := by
  simp [printedLines, List.filterMap_append]

theorem savedOutputs_nil : savedOutputs [] = [] := rfl

theorem savedOutputs_cons_save (p f : String) (pg : Nat) (l : List Event) :
    savedOutputs (Event.savePage p f pg :: l) = (p, f) :: savedOutputs l := by
  simp [savedOutputs]

theorem savedOutputs_cons_print (s : String) (l : List Event) :
    savedOutputs (Event.printLine s :: l) = savedOutputs l := by
  simp [savedOutputs]

theorem savedOutputs_cons_convert (p : String) (d : Int) (l : List Event) :
    savedOutputs (Event.convertCall p d :: l) = savedOutputs l := by
  simp [savedOutputs]

theorem printedLines_nil : printedLines [] = [] := rfl

theorem printedLines_cons_save (p f : String) (pg : Nat) (l : List Event) :
    printedLines (Event.savePage p f pg :: l) = printedLines l := by
  simp [printedLines]

theorem printedLines_cons_print (s : String) (l : List Event) :
    printedLines (Event.printLine s :: l) = s :: printedLines l := by
  simp [printedLines]

theorem printedLines_cons_convert (p : String) (d : Int) (l : List Event) :
    printedLines (Event.convertCall p d :: l) = printedLines l := by
  simp [printedLines]

theorem savedOutputs_ensure_parent (env : Env) (p : String) :
    savedOutputs (ensure_parent env p) = [] := by
  unfold ensure_parent savedOutputs
  split <;> simp

theorem printedLines_ensure_parent (env : Env) (p : String) :
    printedLines (ensure_parent env p) = [] := by
  unfold ensure_parent printedLines
  split <;> simp

/-- The saves performed by the output loop are exactly the prefix of the
requested outputs before the first one whose save raises. -/
theorem savedOutputs_writeLoop (env : Env) (fp : Nat)
    (outs : List (String × String)) :
    savedOutputs (writeLoop env fp outs).1
      = outs.takeWhile (fun o => !env.saveFails o.1) := by
  induction outs with
  | nil => simp [writeLoop, savedOutputs]
  | cons o rest ih =>
    obtain ⟨p, f⟩ := o
    by_cases hf : env.saveFails p
    · simp [writeLoop, hf, savedOutputs_ensure_parent, List.takeWhile_cons]
    · simp only [writeLoop, hf, Bool.false_eq_true, if_false]
      rw [savedOutputs_append, savedOutputs_append, savedOutputs_ensure_parent,
        savedOutputs_cons_save, savedOutputs_cons_print, savedOutputs_nil, ih]
      simp [List.takeWhile_cons, hf]

/-- The lines printed by the output loop are the confirmation lines of the
outputs it saved, in order. -/
theorem printedLines_writeLoop (env : Env) (fp : Nat)
    (outs : List (String × String)) :
    printedLines (writeLoop env fp outs).1
      = (outs.takeWhile (fun o => !env.saveFails o.1)).map confLine := by
  induction outs with
  | nil => simp [writeLoop, printedLines]
  | cons o rest ih =>
    obtain ⟨p, f⟩ := o
    by_cases hf : env.saveFails p
    · simp [writeLoop, hf, printedLines_ensure_parent, List.takeWhile_cons]
    · simp only [writeLoop, hf, Bool.false_eq_true, if_false]
      rw [printedLines_append, printedLines_append, printedLines_ensure_parent,
        printedLines_cons_save, printedLines_cons_print, printedLines_nil, ih]
      simp [List.takeWhile_cons, hf, confLine]

/-- Every save event emitted by the output loop writes the page it was
given, namely the first page. -/
theorem writeLoop_save_page (env : Env) (fp : Nat)
    (outs : List (String × String)) (p f : String) (pg : Nat)
    (h : Event.savePage p f pg ∈ (writeLoop env fp outs).1) : pg = fp := by
  induction outs with
  | nil => simp [writeLoop] at h
  | cons o rest ih =>
    obtain ⟨q, g⟩ := o
    by_cases hf : env.saveFails q
    · by_cases hq : env.parentExists q <;>
        simp [writeLoop, hf, hq, ensure_parent] at h
    · have h' : (p = q ∧ f = g ∧ pg = fp) ∨
          Event.savePage p f pg ∈ (writeLoop env fp rest).1 := by
        by_cases hq : env.parentExists q <;>
          simp [writeLoop, hf, hq, ensure_parent] at h <;> exact h
      rcases h' with ⟨_, _, hpg⟩ | h'
      · exact hpg
      · exact ih h'

/-- The output loop never raises SystemExit; it either succeeds or ends in
an exception from a save call. -/
theorem writeLoop_no_systemExit (env : Env) (fp : Nat)
    (outs : List (String × String)) (m : String) :
    (writeLoop env fp outs).2 ≠ Outcome.systemExit m := by
  induction outs with
  | nil => simp [writeLoop]
  | cons o rest ih =>
    obtain ⟨q, g⟩ := o
    by_cases hf : env.saveFails q
    · simp [writeLoop, hf]
    · simp only [writeLoop, hf, Bool.false_eq_true, if_false]
      exact ih

/-- A save event in the loop trace whose path has no existing parent
directory is immediately preceded by the mkdir event for that path. -/
theorem writeLoop_mkdir_before_save (env : Env) (fp : Nat)
    (outs : List (String × String)) (p f : String) (pg : Nat)
    (hpar : env.parentExists p = false)
    (h : Event.savePage p f pg ∈ (writeLoop env fp outs).1) :
    ∃ l1 l2, (writeLoop env fp outs).1
      = l1 ++ Event.mkdirParents p :: Event.savePage p f pg :: l2 := by
  induction outs with
  | nil => simp [writeLoop] at h
  | cons o rest ih =>
    obtain ⟨q, g⟩ := o
    by_cases hf : env.saveFails q
    · by_cases hq : env.parentExists q <;>
        simp [writeLoop, hf, hq, ensure_parent] at h
    · have h' : (p = q ∧ f = g ∧ pg = fp) ∨
          Event.savePage p f pg ∈ (writeLoop env fp rest).1 := by
        by_cases hq : env.parentExists q <;>
          simp [writeLoop, hf, hq, ensure_parent] at h <;> exact h
      rcases h' with ⟨hq, hg, hpg⟩ | h'
      · subst hq; subst hg
        refine ⟨[], Event.printLine ("Generated " ++ f ++ " image at " ++ p) ::
          (writeLoop env fp rest).1, ?_⟩
        simp [writeLoop, hf, ensure_parent, hpar, hpg]
      · obtain ⟨l1, l2, hl⟩ := ih h'
        refine ⟨(ensure_parent env q ++
          [Event.savePage q g fp,
           Event.printLine ("Generated " ++ g ++ " image at " ++ q)]) ++ l1,
          l2, ?_⟩
        simp only [writeLoop, hf, Bool.false_eq_true, if_false]
        rw [hl]
        simp

theorem isEmpty_false_of_ne_nil {α : Type} {l : List α} (h : l ≠ []) :
    l.isEmpty = false := by
  cases l with
  | nil => exact absurd rfl h
  | cons a t => rfl

theorem main_missing_input (env : Env) (args : Args)
    (h : env.pathExists args.input = false) :
    main env args = ([], Outcome.systemExit ("PDF not found: " ++ args.input)) := by
  simp [main, h]

theorem main_no_outputs (env : Env) (args : Args)
    (h1 : env.pathExists args.input = true)
    (h2 : (outputs args).isEmpty = true) :
    main env args
      = ([], Outcome.systemExit "Specify at least --png or --jpg output path.") := by
  simp [main, h1, h2]

theorem main_no_pages (env : Env) (args : Args)
    (h1 : env.pathExists args.input = true)
    (h2 : (outputs args).isEmpty = false)
    (h3 : env.convert_from_path args.input args.dpi = []) :
    main env args
      = ([Event.convertCall args.input args.dpi],
         Outcome.systemExit "No pages rendered from PDF.") := by
  simp [main, h1, h2, h3]

theorem main_run (env : Env) (args : Args) (fp : Nat) (rest : List Nat)
    (h1 : env.pathExists args.input = true)
    (h2 : (outputs args).isEmpty = false)
    (h3 : env.convert_from_path args.input args.dpi = fp :: rest) :
    main env args
      = (Event.convertCall args.input args.dpi ::
          (writeLoop env fp (outputs args)).1,
         (writeLoop env fp (outputs args)).2) := by
  simp [main, h1, h2, h3]

theorem main_run_fst (env : Env) (args : Args) (fp : Nat) (rest : List Nat)
    (h1 : env.pathExists args.input = true)
    (h2 : (outputs args).isEmpty = false)
    (h3 : env.convert_from_path args.input args.dpi = fp :: rest) :
    (main env args).1
      = Event.convertCall args.input args.dpi ::
          (writeLoop env fp (outputs args)).1 := by
  rw [main_run env args fp rest h1 h2 h3]

theorem main_run_snd (env : Env) (args : Args) (fp : Nat) (rest : List Nat)
    (h1 : env.pathExists args.input = true)
    (h2 : (outputs args).isEmpty = false)
    (h3 : env.convert_from_path args.input args.dpi = fp :: rest) :
    (main env args).2 = (writeLoop env fp (outputs args)).2 := by
  rw [main_run env args fp rest h1 h2 h3]

/-! Concrete fixtures used to exercise the theorems on closed inputs. -/

def envA : Env :=
  { pathExists := fun _ => true, parentExists := fun _ => true,
    convert_from_path := fun _ _ => [7], saveFails := fun _ => false }

def envFailB : Env :=
  { pathExists := fun _ => true, parentExists := fun _ => true,
    convert_from_path := fun _ _ => [7], saveFails := fun p => p == "b.jpg" }

def envMissing : Env :=
  { pathExists := fun _ => false, parentExists := fun _ => true,
    convert_from_path := fun _ _ => [7], saveFails := fun _ => false }

def envNoPages : Env :=
  { pathExists := fun _ => true, parentExists := fun _ => true,
    convert_from_path := fun _ _ => [], saveFails := fun _ => false }

def envNoParent : Env :=
  { pathExists := fun _ => true, parentExists := fun _ => false,
    convert_from_path := fun _ _ => [7], saveFails := fun _ => false }

def argsBoth : Args :=
  { input := "in.pdf", png := some "a.png", jpg := some "b.jpg", dpi := 200 }

def argsEmptyPng : Args :=
  { input := "in.pdf", png := some "", jpg := none, dpi := 200 }

def argsPngOnly : Args :=
  { input := "in.pdf", png := some "a.png", jpg := none, dpi := 200 }

/-- C1: any of the three validation failures (missing input, no outputs,
zero pages) ends the run via SystemExit with no file written; a save
failure during the output loop ends the run with exactly the outputs
preceding the failing one already written. -/
theorem c1_abort_and_loop_semantics (env : Env) (args : Args) :
    (∀ m, (main env args).2 = Outcome.systemExit m →
      savedPaths (main env args).1 = [])
    ∧ (∀ m, (main env args).2 = Outcome.exception m →
      savedOutputs (main env args).1
        = (outputs args).takeWhile (fun o => !env.saveFails o.1)) := by
  constructor
  · intro m hm
    cases h1 : env.pathExists args.input with
    | false => rw [main_missing_input env args h1]; rfl
    | true =>
      cases h2 : (outputs args).isEmpty with
      | true => rw [main_no_outputs env args h1 h2]; rfl
      | false =>
        cases h3 : env.convert_from_path args.input args.dpi with
        | nil => rw [main_no_pages env args h1 h2 h3]; rfl
        | cons fp rest =>
          rw [main_run_snd env args fp rest h1 h2 h3] at hm
          exact absurd hm (writeLoop_no_systemExit env fp (outputs args) m)
  · intro m hm
    cases h1 : env.pathExists args.input with
    | false => rw [main_missing_input env args h1] at hm; simp at hm
    | true =>
      cases h2 : (outputs args).isEmpty with
      | true => rw [main_no_outputs env args h1 h2] at hm; simp at hm
      | false =>
        cases h3 : env.convert_from_path args.input args.dpi with
        | nil => rw [main_no_pages env args h1 h2 h3] at hm; simp at hm
        | cons fp rest =>
          rw [main_run_fst env args fp rest h1 h2 h3,
            savedOutputs_cons_convert, savedOutputs_writeLoop]

theorem c1_witness :
    (main envFailB argsBoth).2 = Outcome.exception "save failed: b.jpg"
    ∧ savedOutputs (main envFailB argsBoth).1
        = (outputs argsBoth).takeWhile (fun o => !envFailB.saveFails o.1) :=
  ⟨rfl, (c1_abort_and_loop_semantics envFailB argsBoth).2 "save failed: b.jpg" rfl⟩

/-- C2: every page written by a save event is the first page returned by
the rasterizer for the given input and DPI; no other page is used. -/
theorem c2_only_first_page_saved (env : Env) (args : Args) (p f : String)
    (pg : Nat) (h : Event.savePage p f pg ∈ (main env args).1) :
    (env.convert_from_path args.input args.dpi).head? = some pg := by
  cases h1 : env.pathExists args.input with
  | false => rw [main_missing_input env args h1] at h; simp at h
  | true =>
    cases h2 : (outputs args).isEmpty with
    | true => rw [main_no_outputs env args h1 h2] at h; simp at h
    | false =>
      cases h3 : env.convert_from_path args.input args.dpi with
      | nil => rw [main_no_pages env args h1 h2 h3] at h; simp at h
      | cons fp rest =>
        rw [main_run_fst env args fp rest h1 h2 h3] at h
        have hmem : Event.savePage p f pg ∈ (writeLoop env fp (outputs args)).1 := by
          rcases List.mem_cons.mp h with hc | hmem
          · exact Event.noConfusion hc
          · exact hmem
        rw [writeLoop_save_page env fp (outputs args) p f pg hmem]
        rfl

theorem c2_witness :
    Event.savePage "a.png" "PNG" 7 ∈ (main envA argsBoth).1
    ∧ (envA.convert_from_path argsBoth.input argsBoth.dpi).head? = some 7 :=
  ⟨by decide, c2_only_first_page_saved envA argsBoth "a.png" "PNG" 7 (by decide)⟩

/-- C3: when the input path does not exist, the run ends at once with the
user-facing SystemExit message and the rasterizer is never invoked. -/
theorem c3_missing_input_aborts (env : Env) (args : Args)
    (h : env.pathExists args.input = false) :
    main env args = ([], Outcome.systemExit ("PDF not found: " ++ args.input))
    ∧ convertCalls (main env args).1 = [] := by
  refine ⟨main_missing_input env args h, ?_⟩
  rw [main_missing_input env args h]
  rfl

theorem c3_witness :
    main envMissing argsBoth
      = ([], Outcome.systemExit ("PDF not found: " ++ "in.pdf"))
    ∧ convertCalls (main envMissing argsBoth).1 = [] :=
  c3_missing_input_aborts envMissing argsBoth rfl

/-- C4: when neither --png nor --jpg is given (or both are falsy), the run
ends with a SystemExit, the rasterizer is never invoked and no file is
written. -/
theorem c4_no_output_aborts (env : Env) (args : Args)
    (hp : truthy args.png = false) (hj : truthy args.jpg = false) :
    (∃ m, (main env args).2 = Outcome.systemExit m)
    ∧ convertCalls (main env args).1 = []
    ∧ savedPaths (main env args).1 = [] := by
  have ho : outputs args = [] := by simp [outputs, hp, hj]
  cases h1 : env.pathExists args.input with
  | false =>
    rw [main_missing_input env args h1]
    exact ⟨⟨"PDF not found: " ++ args.input, rfl⟩, rfl, rfl⟩
  | true =>
    rw [main_no_outputs env args h1 (by rw [ho]; rfl)]
    exact ⟨⟨"Specify at least --png or --jpg output path.", rfl⟩, rfl, rfl⟩

theorem c4_witness :
    (∃ m, (main envA { input := "in.pdf" }).2 = Outcome.systemExit m)
    ∧ convertCalls (main envA { input := "in.pdf" }).1 = []
    ∧ savedPaths (main envA { input := "in.pdf" }).1 = [] :=
  c4_no_output_aborts envA { input := "in.pdf" } rfl rfl

/-- C5: when the rasterizer returns no pages, the run ends with the
user-facing SystemExit message and no output file is written. -/
theorem c5_zero_pages_aborts (env : Env) (args : Args)
    (h1 : env.pathExists args.input = true)
    (h2 : outputs args ≠ [])
    (h3 : env.convert_from_path args.input args.dpi = []) :
    main env args
      = ([Event.convertCall args.input args.dpi],
         Outcome.systemExit "No pages rendered from PDF.")
    ∧ savedPaths (main env args).1 = [] := by
  have he := isEmpty_false_of_ne_nil h2
  refine ⟨main_no_pages env args h1 he h3, ?_⟩
  rw [main_no_pages env args h1 he h3]
  rfl

theorem c5_witness :
    main envNoPages argsBoth
      = ([Event.convertCall argsBoth.input argsBoth.dpi],
         Outcome.systemExit "No pages rendered from PDF.")
    ∧ savedPaths (main envNoPages argsBoth).1 = [] :=
  c5_zero_pages_aborts envNoPages argsBoth rfl (by decide) rfl

/-- C6: with both --png and --jpg given and a successful run, both files
are written in argument declaration order: the PNG save and its
confirmation line come before the JPEG save and its confirmation line. -/
theorem c6_png_before_jpeg (env : Env) (input p j : String) (d : Int)
    (fp : Nat) (rest : List Nat) (hp : p ≠ "") (hj : j ≠ "")
    (h1 : env.pathExists input = true)
    (hc : env.convert_from_path input d = fp :: rest)
    (sp : env.saveFails p = false) (sj : env.saveFails j = false) :
    (main env { input := input, png := some p, jpg := some j, dpi := d }).2
      = Outcome.success
    ∧ savedOutputs
        (main env { input := input, png := some p, jpg := some j, dpi := d }).1
      = [(p, "PNG"), (j, "JPEG")]
    ∧ printedLines
        (main env { input := input, png := some p, jpg := some j, dpi := d }).1
      = ["Generated PNG image at " ++ p, "Generated JPEG image at " ++ j] := by
  have ho : outputs { input := input, png := some p, jpg := some j, dpi := d }
      = [(p, "PNG"), (j, "JPEG")] := by
    simp [outputs, truthy, hp, hj]
  have h2 : (outputs { input := input, png := some p, jpg := some j, dpi := d }).isEmpty
      = false := by rw [ho]; rfl
  refine ⟨?_, ?_, ?_⟩
  · rw [main_run_snd env _ fp rest h1 h2 hc, ho]
    simp [writeLoop, sp, sj]
  · rw [main_run_fst env _ fp rest h1 h2 hc, savedOutputs_cons_convert,
      savedOutputs_writeLoop, ho]
    simp [List.takeWhile_cons, sp, sj]
  · rw [main_run_fst env _ fp rest h1 h2 hc, printedLines_cons_convert,
      printedLines_writeLoop, ho]
    simp [List.takeWhile_cons, sp, sj, confLine]

theorem c6_witness :
    (main envA ⟨"in.pdf", some "a.png", some "b.jpg", 200⟩).2 = Outcome.success
    ∧ savedOutputs (main envA ⟨"in.pdf", some "a.png", some "b.jpg", 200⟩).1
      = [("a.png", "PNG"), ("b.jpg", "JPEG")]
    ∧ printedLines (main envA ⟨"in.pdf", some "a.png", some "b.jpg", 200⟩).1
      = ["Generated PNG image at " ++ "a.png", "Generated JPEG image at " ++ "b.jpg"] :=
  c6_png_before_jpeg envA "in.pdf" "a.png" "b.jpg" 200 7 []
    (by decide) (by decide) rfl rfl rfl rfl

/-- C7: every output file written to a path whose parent directory does
not exist is preceded, immediately, by the creation of the missing parent
directories for that path. -/
theorem c7_mkdir_before_save (env : Env) (args : Args) (p f : String)
    (pg : Nat) (hpar : env.parentExists p = false)
    (h : Event.savePage p f pg ∈ (main env args).1) :
    ∃ l1 l2, (main env args).1
      = l1 ++ Event.mkdirParents p :: Event.savePage p f pg :: l2 := by
  cases h1 : env.pathExists args.input with
  | false => rw [main_missing_input env args h1] at h; simp at h
  | true =>
    cases h2 : (outputs args).isEmpty with
    | true => rw [main_no_outputs env args h1 h2] at h; simp at h
    | false =>
      cases h3 : env.convert_from_path args.input args.dpi with
      | nil => rw [main_no_pages env args h1 h2 h3] at h; simp at h
      | cons fp rest =>
        rw [main_run_fst env args fp rest h1 h2 h3] at h
        have hmem : Event.savePage p f pg ∈ (writeLoop env fp (outputs args)).1 := by
          rcases List.mem_cons.mp h with hc | hmem
          · exact Event.noConfusion hc
          · exact hmem
        obtain ⟨l1, l2, hl⟩ :=
          writeLoop_mkdir_before_save env fp (outputs args) p f pg hpar hmem
        refine ⟨Event.convertCall args.input args.dpi :: l1, l2, ?_⟩
        rw [main_run_fst env args fp rest h1 h2 h3, hl]
        rfl

theorem c7_witness :
    envNoParent.parentExists "a.png" = false
    ∧ Event.savePage "a.png" "PNG" 7 ∈ (main envNoParent argsPngOnly).1
    ∧ ∃ l1 l2, (main envNoParent argsPngOnly).1
        = l1 ++ Event.mkdirParents "a.png" :: Event.savePage "a.png" "PNG" 7 :: l2 :=
  ⟨rfl, by decide,
    c7_mkdir_before_save envNoParent argsPngOnly "a.png" "PNG" 7 rfl (by decide)⟩

/-- C8: the lines printed to standard output are exactly one confirmation
line per written file, in order, of the form
"Generated FORMAT image at path". -/
theorem c8_one_line_per_file (env : Env) (args : Args) :
    printedLines (main env args).1
      = (savedOutputs (main env args).1).map confLine := by
  cases h1 : env.pathExists args.input with
  | false => rw [main_missing_input env args h1]; rfl
  | true =>
    cases h2 : (outputs args).isEmpty with
    | true => rw [main_no_outputs env args h1 h2]; rfl
    | false =>
      cases h3 : env.convert_from_path args.input args.dpi with
      | nil => rw [main_no_pages env args h1 h2 h3]; rfl
      | cons fp rest =>
        rw [main_run_fst env args fp rest h1 h2 h3, printedLines_cons_convert,
          savedOutputs_cons_convert, printedLines_writeLoop,
          savedOutputs_writeLoop]

/-- C9: an output option whose value is the empty string is treated as if
the option were absent, for either option: it adds no entry to the output
list, the whole run is unchanged, and when the empty-valued option is the
only output option given the run aborts with the no-output-specified
error. -/
theorem c9_empty_option_ignored (env : Env) (input : String)
    (p j : Option String) (d : Int) :
    outputs { input := input, png := some "", jpg := j, dpi := d }
      = outputs { input := input, png := none, jpg := j, dpi := d }
    ∧ main env { input := input, png := some "", jpg := j, dpi := d }
      = main env { input := input, png := none, jpg := j, dpi := d }
    ∧ outputs { input := input, png := p, jpg := some "", dpi := d }
      = outputs { input := input, png := p, jpg := none, dpi := d }
    ∧ main env { input := input, png := p, jpg := some "", dpi := d }
      = main env { input := input, png := p, jpg := none, dpi := d }
    ∧ (env.pathExists input = true →
        main env { input := input, png := some "", jpg := none, dpi := d }
          = ([], Outcome.systemExit "Specify at least --png or --jpg output path."))
    ∧ (env.pathExists input = true →
        main env { input := input, png := none, jpg := some "", dpi := d }
          = ([], Outcome.systemExit "Specify at least --png or --jpg output path.")) := by
  have ho : outputs { input := input, png := some "", jpg := j, dpi := d }
      = outputs { input := input, png := none, jpg := j, dpi := d } := by
    simp [outputs, truthy]
  have hoj : outputs { input := input, png := p, jpg := some "", dpi := d }
      = outputs { input := input, png := p, jpg := none, dpi := d } := by
    simp [outputs, truthy]
  refine ⟨ho, ?_, hoj, ?_, ?_, ?_⟩
  · unfold main
    dsimp only
    rw [ho]
  · unfold main
    dsimp only
    rw [hoj]
  · intro h1
    have ho2 : outputs { input := input, png := some "", jpg := none, dpi := d }
        = [] := by simp [outputs, truthy]
    exact main_no_outputs env _ h1 (by rw [ho2]; rfl)
  · intro h1
    have ho3 : outputs { input := input, png := none, jpg := some "", dpi := d }
        = [] := by simp [outputs, truthy]
    exact main_no_outputs env _ h1 (by rw [ho3]; rfl)

theorem c9_witness :
    outputs { input := "in.pdf", png := some "", jpg := some "b.jpg", dpi := 200 }
      = outputs { input := "in.pdf", png := none, jpg := some "b.jpg", dpi := 200 }
    ∧ main envA { input := "in.pdf", png := some "", jpg := some "b.jpg", dpi := 200 }
      = main envA { input := "in.pdf", png := none, jpg := some "b.jpg", dpi := 200 }
    ∧ outputs { input := "in.pdf", png := some "a.png", jpg := some "", dpi := 200 }
      = outputs { input := "in.pdf", png := some "a.png", jpg := none, dpi := 200 }
    ∧ main envA { input := "in.pdf", png := some "a.png", jpg := some "", dpi := 200 }
      = main envA { input := "in.pdf", png := some "a.png", jpg := none, dpi := 200 }
    ∧ main envA { input := "in.pdf", png := some "", jpg := none, dpi := 200 }
      = ([], Outcome.systemExit "Specify at least --png or --jpg output path.")
    ∧ main envA { input := "in.pdf", png := none, jpg := some "", dpi := 200 }
      = ([], Outcome.systemExit "Specify at least --png or --jpg output path.") :=
  ⟨(c9_empty_option_ignored envA "in.pdf" (some "a.png") (some "b.jpg") 200).1,
   (c9_empty_option_ignored envA "in.pdf" (some "a.png") (some "b.jpg") 200).2.1,
   (c9_empty_option_ignored envA "in.pdf" (some "a.png") (some "b.jpg") 200).2.2.1,
   (c9_empty_option_ignored envA "in.pdf" (some "a.png") (some "b.jpg") 200).2.2.2.1,
   (c9_empty_option_ignored envA "in.pdf" (some "a.png") (some "b.jpg") 200).2.2.2.2.1 rfl,
   (c9_empty_option_ignored envA "in.pdf" (some "a.png") (some "b.jpg") 200).2.2.2.2.2 rfl⟩

/-- C10: the format tag used for the --jpg output, in the save call and in
the printed confirmation line, is the string JPEG and not JPG. -/
theorem c10_jpeg_format_tag (env : Env) (input j : String) (d : Int)
    (fp : Nat) (rest : List Nat) (hj : j ≠ "")
    (h1 : env.pathExists input = true)
    (hc : env.convert_from_path input d = fp :: rest)
    (sj : env.saveFails j = false) :
    (j, "JPEG") ∈ outputs { input := input, png := none, jpg := some j, dpi := d }
    ∧ savedOutputs
        (main env { input := input, png := none, jpg := some j, dpi := d }).1
      = [(j, "JPEG")]
    ∧ printedLines
        (main env { input := input, png := none, jpg := some j, dpi := d }).1
      = ["Generated JPEG image at " ++ j] := by
  have ho : outputs { input := input, png := none, jpg := some j, dpi := d }
      = [(j, "JPEG")] := by
    simp [outputs, truthy, hj]
  have h2 : (outputs { input := input, png := none, jpg := some j, dpi := d }).isEmpty
      = false := by rw [ho]; rfl
  refine ⟨?_, ?_, ?_⟩
  · rw [ho]; exact List.mem_singleton.mpr rfl
  · rw [main_run_fst env _ fp rest h1 h2 hc, savedOutputs_cons_convert,
      savedOutputs_writeLoop, ho]
    simp [List.takeWhile_cons, sj]
  · rw [main_run_fst env _ fp rest h1 h2 hc, printedLines_cons_convert,
      printedLines_writeLoop, ho]
    simp [List.takeWhile_cons, sj, confLine]

theorem c10_witness :
    ("b.jpg", "JPEG") ∈ outputs ⟨"in.pdf", none, some "b.jpg", 200⟩
    ∧ savedOutputs (main envA ⟨"in.pdf", none, some "b.jpg", 200⟩).1
      = [("b.jpg", "JPEG")]
    ∧ printedLines (main envA ⟨"in.pdf", none, some "b.jpg", 200⟩).1
      = ["Generated JPEG image at " ++ "b.jpg"] :=
  c10_jpeg_format_tag envA "in.pdf" "b.jpg" 200 7 [] (by decide) rfl rfl rfl

end RenderInvoiceImages
